import Mathlib

/-!
# Verification of the GlobalRich2 copy-trading service and signal widget

Shallow embedding of `src/services/copy-trading-api.service.ts` (the full
version of `CopyTradingAPIService`, with mirror-account support) and of the
signal-list logic of
`src/components/floating-signal-button/FloatingSignalButton.tsx`.

JavaScript numbers are modelled as `Rat`, JavaScript truthiness of numeric
fields as an explicit `= 0` test, truthiness of optional strings as an
explicit `= ""` test, and the `Map`/`Set` fields of the service as
association lists / lists used as sets.  Network effects (WebSocket login
outcomes, proposal/buy responses) are passed in explicitly as environment
records, so every operation is a pure state transition.
-/

namespace GlobalRich

/-! ## Data model -/

/-- `CopyTradingConfig` from the service (full version, lines 461-470). -/
structure CopyTradingConfig where
  traderTokens : List String
  assets : Option (List String) := none
  minTradeStake : Option Rat := none
  maxTradeStake : Option Rat := none
  tradeTypes : Option (List String) := none
  copyRatio : Option Rat := none
  copyToRealAccount : Bool := false
  realAccountToken : Option String := none
deriving DecidableEq, Repr

/-- `TraderConnection` (lines 480-487).  `wsOpen` models the WebSocket
handle being present and open. -/
structure TraderConnection where
  token : String
  wsOpen : Bool
  authorized : Bool
  loginid : String
  balance : Rat
  accountType : String
deriving DecidableEq, Repr

/-- A transaction-feed event as consumed by `handleTraderTransaction` and
`copyTrade`.  Optional numeric/string fields are `Option`s; a JS-falsy
value (`0`, `""`) inside `some` is treated as the code's `||` fallbacks do. -/
structure Transaction where
  transaction_id : Nat
  action : String
  symbol : String
  amount : Rat
  contract_type : String
  duration : Option Nat := none
  duration_unit : Option String := none
  barrier : Option String := none
  loginid : String := ""
deriving DecidableEq, Repr

/-- The private mutable fields of `CopyTradingAPIService` (lines 489-498). -/
structure ServiceState where
  isActive : Bool
  config : Option CopyTradingConfig
  copiedTrades : Nat
  totalProfit : Rat
  traderConnections : List (String × TraderConnection)
  processedTransactions : List String
  monitoringActive : Bool
  realAccountWs : Bool
  realAccountAuthorized : Bool
deriving DecidableEq, Repr

/-- The state of the freshly constructed service singleton. -/
def initialState : ServiceState :=
  { isActive := false
    config := none
    copiedTrades := 0
    totalProfit := 0
    traderConnections := []
    processedTransactions := []
    monitoringActive := false
    realAccountWs := false
    realAccountAuthorized := false }

/-! ## Transaction filter (`shouldCopyTrade`, lines 693-721) -/

/-- `config.assets && config.assets.length > 0 && !config.assets.includes(symbol)`. -/
def assetFilterRejects (c : CopyTradingConfig) (tx : Transaction) : Bool :=
  match c.assets with
  | some as => !as.isEmpty && !(decide (tx.symbol ∈ as))
  | none => false

/-- `config.minTradeStake && stake < config.minTradeStake`; a configured
value of `0` is JS-falsy, so the check is skipped. -/
def minStakeRejects (c : CopyTradingConfig) (tx : Transaction) : Bool :=
  match c.minTradeStake with
  | some m => if m = 0 then false else decide (tx.amount < m)
  | none => false

/-- `config.maxTradeStake && stake > config.maxTradeStake`; `0` is falsy. -/
def maxStakeRejects (c : CopyTradingConfig) (tx : Transaction) : Bool :=
  match c.maxTradeStake with
  | some m => if m = 0 then false else decide (m < tx.amount)
  | none => false

/-- `config.tradeTypes && config.tradeTypes.length > 0 && !includes(contract_type)`. -/
def tradeTypeRejects (c : CopyTradingConfig) (tx : Transaction) : Bool :=
  match c.tradeTypes with
  | some ts => !ts.isEmpty && !(decide (tx.contract_type ∈ ts))
  | none => false

/-- `shouldCopyTrade` (lines 693-721): `false` when no config is stored,
otherwise the four sequential reject checks. -/
def shouldCopyTrade (config : Option CopyTradingConfig) (tx : Transaction) : Bool :=
  match config with
  | none => false
  | some c =>
    if assetFilterRejects c tx then false
    else if minStakeRejects c tx then false
    else if maxStakeRejects c tx then false
    else if tradeTypeRejects c tx then false
    else true

/-! ## Trade replicator (`copyTrade`, lines 726-829) -/

/-- `this.config?.copyRatio || 1.0` (line 752). -/
def effectiveCopyRatio (config : Option CopyTradingConfig) : Rat :=
  match config with
  | some c =>
    match c.copyRatio with
    | some r => if r = 0 then 1 else r
    | none => 1
  | none => 1

/-- The proposal request built by `copyTrade` (lines 756-770). -/
structure ProposalPayload where
  amount : Rat
  basis : String
  contract_type : String
  currency : String
  duration : Nat
  duration_unit : String
  symbol : String
  barrier : Option String
deriving DecidableEq, Repr

/-- Lines 751-770: stake scaling and payload construction, including the
`|| 5`, `|| 't'` fallbacks and the truthiness-guarded barrier. -/
def buildProposalPayload (config : Option CopyTradingConfig) (tx : Transaction) :
    ProposalPayload :=
  { amount := tx.amount * effectiveCopyRatio config
    basis := "stake"
    contract_type := tx.contract_type
    currency := "USD"
    duration :=
      match tx.duration with
      | some d => if d = 0 then 5 else d
      | none => 5
    duration_unit :=
      match tx.duration_unit with
      | some u => if u = "" then "t" else u
      | none => "t"
    symbol := tx.symbol
    barrier :=
      match tx.barrier with
      | some b => if b = "" then none else some b
      | none => none }

/-- A successful proposal response (`proposalResponse.proposal`). -/
structure ProposalOk where
  id : Nat
  ask_price : Rat
deriving DecidableEq, Repr

/-- A successful buy response (`buyResponse.buy`). -/
structure BuyOk where
  contract_id : Nat
deriving DecidableEq, Repr

/-- Environment for one replication attempt: whether the shared platform
handle exists, and the two responses (`none` models an error payload). -/
structure CopyEnv where
  apiPresent : Bool
  proposalResp : Option ProposalOk
  buyResp : Option BuyOk
deriving DecidableEq, Repr

/-- `copyTrade` (lines 726-829) as a state transition.  The second
component is the proposal request actually issued, or `none` when the
function returned at one of its connectivity guards. -/
def copyTrade (env : CopyEnv) (s : ServiceState) (tx : Transaction) :
    ServiceState × Option ProposalPayload :=
  let useReal :=
    (match s.config with
     | some c => c.copyToRealAccount
     | none => false) && s.realAccountAuthorized
  if useReal && !s.realAccountWs then (s, none)
  else if !useReal && !env.apiPresent then (s, none)
  else
    let payload := buildProposalPayload s.config tx
    match env.proposalResp with
    | none => (s, some payload)
    | some _ =>
      match env.buyResp with
      | none => (s, some payload)
      | some _ => ({ s with copiedTrades := s.copiedTrades + 1 }, some payload)

/-! ## Transaction pipeline (`handleTraderTransaction`, lines 659-688) -/

/-- The composite dedupe key `` `${traderToken}-${transaction.transaction_id}` ``. -/
def txKey (token : String) (tx : Transaction) : String :=
  token ++ "-" ++ toString tx.transaction_id

/-- `handleTraderTransaction` (lines 659-688).  Returns the new state and
the list of keys for which a replication was issued (at most one). -/
def handleTraderTransaction (env : CopyEnv) (s : ServiceState) (token : String)
    (tx : Transaction) : ServiceState × List String :=
  let txId := txKey token tx
  if txId ∈ s.processedTransactions then (s, [])
  else if tx.action ≠ "buy" then (s, [])
  else if !(shouldCopyTrade s.config tx) then (s, [])
  else
    let s1 := { s with processedTransactions := txId :: s.processedTransactions }
    let r := copyTrade env s1 tx
    (r.1, if r.2.isSome then [txId] else [])

/-- One delivered feed event together with its replication environment. -/
structure FeedEvent where
  env : CopyEnv
  token : String
  tx : Transaction

/-- Sequential processing of a feed-delivery sequence, accumulating the
keys of all issued replications. -/
def processFeed (evs : List FeedEvent) (s : ServiceState) :
    ServiceState × List String :=
  match evs with
  | [] => (s, [])
  | e :: rest =>
    let r := handleTraderTransaction e.env s e.token e.tx
    let r' := processFeed rest r.1
    (r'.1, r.2 ++ r'.2)

/-! ## Controller: start / stop / reads -/

/-- Login outcome for one trader credential (`data.authorize`). -/
structure ConnInfo where
  loginid : String
  balance : Rat
deriving DecidableEq, Repr

/-- Environment for `startCopyTrading`: the shared platform handle, the
mirror ("real") account login result, and the per-token login results
(`none` models a rejected or timed-out login). -/
structure StartEnv where
  apiPresent : Bool
  realConnect : Option String
  connect : String → Option ConnInfo

/-- Account-kind inference from the login id prefix (lines 598-601, 1091). -/
def isDemoLoginid (l : String) : Bool :=
  l.startsWith "VRT" || l.startsWith "VRW"

/-- Association-list update used for `this.traderConnections.set(token, ...)`. -/
def setConn (m : List (String × TraderConnection)) (token : String)
    (c : TraderConnection) : List (String × TraderConnection) :=
  match m with
  | [] => [(token, c)]
  | (t, c0) :: rest =>
    if t = token then (token, c) :: rest else (t, c0) :: setConn rest token c

/-- The connection record stored by `connectToTrader` on a successful
login (lines 604-611). -/
def mkTraderConnection (token : String) (info : ConnInfo) : TraderConnection :=
  { token := token
    wsOpen := true
    authorized := true
    loginid := info.loginid
    balance := info.balance
    accountType := if isDemoLoginid info.loginid then "demo" else "real" }

/-- The per-token connection loop of `startCopyTrading` (lines 531-536):
each failure is logged and skipped, each success is stored in the map. -/
def connectTraders (env : StartEnv) (tokens : List String) (s : ServiceState) :
    ServiceState :=
  match tokens with
  | [] => s
  | t :: rest =>
    let s' :=
      match env.connect t with
      | some info =>
        { s with traderConnections :=
            setConn s.traderConnections t (mkTraderConnection t info) }
      | none => s
    connectTraders env rest s'

/-- JS truthiness of `config.realAccountToken`. -/
def realTokenTruthy (cfg : CopyTradingConfig) : Bool :=
  match cfg.realAccountToken with
  | some t => t ≠ ""
  | none => false

/-- Whether `connectToRealAccount` resolves `true`: authorization succeeds
and the login id is not a demo account (lines 1084-1103). -/
def realConnectSucceeds (env : StartEnv) : Bool :=
  match env.realConnect with
  | some l => !isDemoLoginid l
  | none => false

/-- `startCopyTrading` (lines 503-564) as a state transition returning the
`success` flag of its result object. -/
def startCopyTrading (env : StartEnv) (s : ServiceState) (cfg : CopyTradingConfig) :
    ServiceState × Bool :=
  if !env.apiPresent then (s, false)
  else if cfg.traderTokens.isEmpty then (s, false)
  else if cfg.copyToRealAccount && !realTokenTruthy cfg then (s, false)
  else
    let doReal := cfg.copyToRealAccount && realTokenTruthy cfg
    if doReal && !realConnectSucceeds env then
      ({ s with realAccountWs := false, realAccountAuthorized := false }, false)
    else
      let s1 :=
        if doReal then { s with realAccountWs := true, realAccountAuthorized := true }
        else s
      let s2 := connectTraders env cfg.traderTokens s1
      if s2.traderConnections.isEmpty then (s2, false)
      else
        ({ s2 with
            isActive := true
            config := some cfg
            copiedTrades := 0
            totalProfit := 0
            monitoringActive := true }, true)

/-- `stopCopyTrading` (lines 965-1001): clears the sweep timer, closes
the mirror and trader sockets, clears the connection and dedupe sets,
flips the active flag, drops the config.  The counters are not touched. -/
def stopCopyTrading (s : ServiceState) : ServiceState × Bool :=
  let s1 := { s with monitoringActive := false }
  let s2 :=
    if s1.realAccountWs then
      { s1 with realAccountWs := false, realAccountAuthorized := false }
    else s1
  ({ s2 with
      traderConnections := []
      processedTransactions := []
      isActive := false
      config := none }, true)

/-- `CopyTradingStatus` (lines 472-478), as returned by `getStatus`. -/
structure CopyTradingStatus where
  isActive : Bool
  traderTokens : List String
  copiedTrades : Nat
  totalProfit : Rat
deriving DecidableEq, Repr

/-- `getStatus` (lines 1040-1047). -/
def getStatus (s : ServiceState) : CopyTradingStatus :=
  { isActive := s.isActive
    traderTokens :=
      match s.config with
      | some c => c.traderTokens
      | none => []
    copiedTrades := s.copiedTrades
    totalProfit := s.totalProfit }

/-- One entry of the `getConnectedTraders` result (lines 1006-1021). -/
structure TraderInfo where
  loginid : String
  balance : Rat
  token : String
  accountType : String
deriving DecidableEq, Repr

/-- `getConnectedTraders` (lines 1006-1021). -/
def getConnectedTraders (s : ServiceState) : List TraderInfo :=
  (s.traderConnections.filter (fun p => p.2.authorized)).map fun p =>
    { loginid := p.2.loginid
      balance := p.2.balance
      token := p.2.token.take 10 ++ "..."
      accountType := p.2.accountType.toUpper }

/-- The record returned by `getDetailedStatistics` (lines 1026-1035). -/
structure DetailedStatistics where
  isActive : Bool
  connectedTraders : Nat
  copiedTrades : Nat
  totalProfit : Rat
  averageProfitPerTrade : Rat
  processedTransactions : Nat
deriving DecidableEq, Repr

/-- `getDetailedStatistics` (lines 1026-1035). -/
def getDetailedStatistics (s : ServiceState) : DetailedStatistics :=
  { isActive := s.isActive
    connectedTraders := s.traderConnections.length
    copiedTrades := s.copiedTrades
    totalProfit := s.totalProfit
    averageProfitPerTrade :=
      if s.copiedTrades > 0 then s.totalProfit / (s.copiedTrades : Rat) else 0
    processedTransactions := s.processedTransactions.length }

/-- `isRunning` (lines 1052-1054). -/
def isRunning (s : ServiceState) : Bool :=
  s.isActive

/-! ## Mirror-account request path (`sendToRealAccount`, lines 834-861) -/

/-- An inbound message on the mirror socket: its arrival time (same clock
as `Date.now()`, in milliseconds) and its `req_id` field. -/
structure RealMsg where
  arrival : Nat
  req_id : Nat
deriving DecidableEq, Repr

/-- `const reqId = Date.now()` (line 841): the request id is the current
clock value, not a per-call counter. -/
def sendReqId (now : Nat) : Nat := now

/-- Ids handed out to a batch of requests issued at the given times. -/
def issuedReqIds (issueTimes : List Nat) : List Nat :=
  issueTimes.map sendReqId

/-- Outcome of one `sendToRealAccount` call. -/
inductive RealSendResult where
  | notConnected
  | response (req_id : Nat)
  | timeoutErr
deriving DecidableEq, Repr

/-- `sendToRealAccount` (lines 834-861): reject if the socket is not open;
otherwise attach a listener that resolves on the first message whose
`req_id` matches, racing a 10-second timer.  `inbound` is the
arrival-ordered message stream on the mirror socket. -/
def sendToRealAccount (wsOpen : Bool) (now : Nat) (inbound : List RealMsg) :
    RealSendResult :=
  if !wsOpen then .notConnected
  else
    match inbound.find? (fun m => decide (m.req_id = sendReqId now)) with
    | some m =>
      if m.arrival < now + 10000 then .response m.req_id else .timeoutErr
    | none => .timeoutErr

/-! ## Signal widget (`FloatingSignalButton.tsx`) -/

/-- The `Signal` record (FloatingSignalButton.tsx lines 7-18). -/
structure Signal where
  id : String
  timestamp : Nat
  market : String
  type : String
  confidence : String
  strategy : String
  entry : Option Rat := none
  validityDuration : Option Nat := none
  expiresAt : Option Nat := none
  remainingTime : Option Nat := none
deriving DecidableEq, Repr

/-- `setSignals(prev => [newSignal, ...prev.slice(0, 9)])` (line 81). -/
def addSignal (newSignal : Signal) (prev : List Signal) : List Signal :=
  newSignal :: prev.take 9

/-- One step of the countdown sweep (lines 110-119): recompute
`remainingTime` as `max 0 (floor((expiresAt - now) / 1000))`; a signal with
a JS-falsy `expiresAt` is returned unchanged. -/
def updateRemaining (now : Nat) (s : Signal) : Signal :=
  match s.expiresAt with
  | some e => if e = 0 then s else { s with remainingTime := some ((e - now) / 1000) }
  | none => s

/-- The sweep's survival test `(s.remainingTime || 0) > 0` (line 120). -/
def signalAlive (s : Signal) : Bool :=
  match s.remainingTime with
  | some r => decide (0 < r)
  | none => false

/-- The once-per-second sweep (lines 109-121). -/
def sweepSignals (now : Nat) (prev : List Signal) : List Signal :=
  (prev.map (updateRemaining now)).filter signalAlive

/-- The two operations that ever rewrite the widget's signal list. -/
inductive SignalOp where
  | add (s : Signal)
  | sweep (now : Nat)

/-- Apply one list rewrite. -/
def stepSignals (sigs : List Signal) (op : SignalOp) : List Signal :=
  match op with
  | .add s => addSignal s sigs
  | .sweep now => sweepSignals now sigs

/-- Run any interleaving of signal generation and sweeps from the initial
empty list. -/
def runSignals (ops : List SignalOp) : List Signal :=
  ops.foldl stepSignals []

/-! ## Helper lemmas for the dedupe invariant -/

/-- `copyTrade` never touches the processed-transaction set. -/
lemma copyTrade_processed (env : CopyEnv) (s : ServiceState) (tx : Transaction) :
    (copyTrade env s tx).1.processedTransactions = s.processedTransactions := by
  unfold copyTrade
  cases hc : s.config <;> cases hp : env.proposalResp <;> cases hb : env.buyResp <;>
    simp only [hc, hp, hb] <;> split <;> try rfl
  all_goals (split <;> rfl)

/-- The processed set only grows across one feed-event handling. -/
lemma handle_processed_mono (env : CopyEnv) (s : ServiceState) (token : String)
    (tx : Transaction) (k : String) (hk : k ∈ s.processedTransactions) :
    k ∈ (handleTraderTransaction env s token tx).1.processedTransactions := by
  simp only [handleTraderTransaction]
  split
  · exact hk
  · split
    · exact hk
    · split
      · exact hk
      · rw [copyTrade_processed]
        exact List.mem_cons_of_mem _ hk

/-- One feed event issues at most one replication, keyed by `txKey`. -/
lemma handle_issued_sub (env : CopyEnv) (s : ServiceState) (token : String)
    (tx : Transaction) :
    (handleTraderTransaction env s token tx).2 = [] ∨
      (handleTraderTransaction env s token tx).2 = [txKey token tx] := by
  simp only [handleTraderTransaction]
  split
  · exact Or.inl rfl
  · split
    · exact Or.inl rfl
    · split
      · exact Or.inl rfl
      · split
        · exact Or.inr rfl
        · exact Or.inl rfl

/-- Any key issued by one feed event is in the resulting processed set. -/
lemma handle_issued_mem (env : CopyEnv) (s : ServiceState) (token : String)
    (tx : Transaction) (k : String)
    (hk : k ∈ (handleTraderTransaction env s token tx).2) :
    k ∈ (handleTraderTransaction env s token tx).1.processedTransactions := by
  revert hk
  simp only [handleTraderTransaction]
  split
  · intro hk; cases hk
  · split
    · intro hk; cases hk
    · split
      · intro hk; cases hk
      · intro hk
        rw [copyTrade_processed]
        have : k = txKey token tx := by
          revert hk
          split
          · intro hk
            simpa using hk
          · intro hk; cases hk
        simp [this]

/-- A key already in the processed set is never issued again. -/
lemma handle_blocked (env : CopyEnv) (s : ServiceState) (token : String)
    (tx : Transaction) (k : String) (hk : k ∈ s.processedTransactions) :
    k ∉ (handleTraderTransaction env s token tx).2 := by
  simp only [handleTraderTransaction]
  split
  · exact List.not_mem_nil k
  · rename_i hnot
    split
    · exact List.not_mem_nil k
    · split
      · exact List.not_mem_nil k
      · split
        · intro hmem
          have : k = txKey token tx := by simpa using hmem
          exact hnot (this ▸ hk)
        · exact List.not_mem_nil k

/-- Once a key is in the processed set, the remaining feed issues zero
replications for it. -/
lemma processFeed_count_zero (evs : List FeedEvent) (s : ServiceState)
    (k : String) (hk : k ∈ s.processedTransactions) :
    (processFeed evs s).2.count k = 0 := by
  induction evs generalizing s with
  | nil => simp [processFeed]
  | cons e rest ih =>
    simp only [processFeed, List.count_append]
    have h1 : (handleTraderTransaction e.env s e.token e.tx).2.count k = 0 :=
      List.count_eq_zero_of_not_mem (handle_blocked _ _ _ _ _ hk)
    have h2 := ih _ (handle_processed_mono e.env s e.token e.tx k hk)
    omega

/-! ## Theorems -/

/-- **C2.** At most one replication (proposal/buy pair) is ever issued per
composite key `(credential, transaction id)`: across any feed-delivery
sequence, from any session state, the key is issued at most once. -/
theorem claim_C2_at_most_once (evs : List FeedEvent) (s : ServiceState)
    (k : String) :
    (processFeed evs s).2.count k ≤ 1 := by
  induction evs generalizing s with
  | nil => simp [processFeed]
  | cons e rest ih =>
    simp only [processFeed, List.count_append]
    by_cases hk : k ∈ (handleTraderTransaction e.env s e.token e.tx).2
    · have h0 : (processFeed rest
          (handleTraderTransaction e.env s e.token e.tx).1).2.count k = 0 :=
        processFeed_count_zero _ _ _ (handle_issued_mem _ _ _ _ _ hk)
      have h1 : (handleTraderTransaction e.env s e.token e.tx).2.count k ≤ 1 := by
        rcases handle_issued_sub e.env s e.token e.tx with h | h
        · simp [h]
        · rw [h]
          by_cases hkk : txKey e.token e.tx = k <;>
            simp [List.count_cons, hkk]
      omega
    · have h1 : (handleTraderTransaction e.env s e.token e.tx).2.count k = 0 :=
        List.count_eq_zero_of_not_mem hk
      have h2 := ih ((handleTraderTransaction e.env s e.token e.tx).1)
      omega


/-- Concrete one-credential configuration for the C1 run. -/
def cfgRunC1 : CopyTradingConfig :=
  { traderTokens := ["T1"] }

/-- Start environment for the C1 run: platform handle present, the single
credential logs in as a real account with balance 500. -/
def envRunC1 : StartEnv :=
  { apiPresent := true
    realConnect := none
    connect := fun _ => some { loginid := "CR123456", balance := 500 } }

/-- Replication environment for the C1 run: proposal and buy both succeed. -/
def cenvRunC1 : CopyEnv :=
  { apiPresent := true
    proposalResp := some { id := 11, ask_price := 10 }
    buyResp := some { contract_id := 99 } }

/-- The buy event replicated during the C1 run. -/
def txRunC1 : Transaction :=
  { transaction_id := 7, action := "buy", symbol := "R_50", amount := 10,
    contract_type := "CALL" }

/-- State after the successful start of the C1 run. -/
def startedC1 : ServiceState :=
  (startCopyTrading envRunC1 initialState cfgRunC1).1

/-- State after one successfully replicated trade in the C1 run. -/
def tradedC1 : ServiceState :=
  (handleTraderTransaction cenvRunC1 startedC1 "T1" txRunC1).1

/-- **C1 (counterexample).** A run with a successful start, one successful
replication, and a successful stop: after the stop, `isActive` is false
and the connected-trader list is empty, but `copiedTrades` is still 1 —
the claim's "both counters reset to zero" is false. -/
theorem claim_C1_counterexample :
    (startCopyTrading envRunC1 initialState cfgRunC1).2 = true ∧
    (stopCopyTrading tradedC1).2 = true ∧
    (getStatus (stopCopyTrading tradedC1).1).isActive = false ∧
    getConnectedTraders (stopCopyTrading tradedC1).1 = [] ∧
    ¬ (getStatus (stopCopyTrading tradedC1).1).copiedTrades = 0 := by
  refine ⟨by decide, by decide, by decide, by decide, by decide⟩

/-- **C1 (amended).** A successful `stopCopyTrading` after a successful
start leaves `isActive` false, the connected-trader list empty and the
processed-transaction set cleared, but leaves `copiedTrades` and
`totalProfit` unchanged; the two counters are reset to zero by a
successful start, not by stop. -/
theorem claim_C1_amended (s : ServiceState) :
    (stopCopyTrading s).2 = true ∧
    (getStatus (stopCopyTrading s).1).isActive = false ∧
    getConnectedTraders (stopCopyTrading s).1 = [] ∧
    (stopCopyTrading s).1.processedTransactions = [] ∧
    (getStatus (stopCopyTrading s).1).copiedTrades = s.copiedTrades ∧
    (getStatus (stopCopyTrading s).1).totalProfit = s.totalProfit ∧
    (∀ env cfg, (startCopyTrading env s cfg).2 = true →
      (getStatus (startCopyTrading env s cfg).1).copiedTrades = 0 ∧
      (getStatus (startCopyTrading env s cfg).1).totalProfit = 0) := by
  refine ⟨?_, ?_, ?_, ?_, ?_, ?_, ?_⟩
  · by_cases h : s.realAccountWs <;>
      simp [stopCopyTrading, h]
  · by_cases h : s.realAccountWs <;>
      simp [stopCopyTrading, getStatus, h]
  · by_cases h : s.realAccountWs <;>
      simp [stopCopyTrading, getConnectedTraders, h]
  · by_cases h : s.realAccountWs <;>
      simp [stopCopyTrading, h]
  · by_cases h : s.realAccountWs <;>
      simp [stopCopyTrading, getStatus, h]
  · by_cases h : s.realAccountWs <;>
      simp [stopCopyTrading, getStatus, h]
  · intro env cfg
    simp only [startCopyTrading]
    repeat' split
    all_goals intro h
    all_goals simp_all [getStatus]

/-- Witness for C1 (amended): on the concrete C1 run, stop leaves the
counter at its pre-stop value and the start had reset it to zero. -/
theorem claim_C1_amended_witness :
    (getStatus (stopCopyTrading tradedC1).1).copiedTrades =
      tradedC1.copiedTrades ∧
    (getStatus (startCopyTrading envRunC1 initialState cfgRunC1).1).copiedTrades
      = 0 :=
  ⟨(claim_C1_amended tradedC1).2.2.2.2.1,
   ((claim_C1_amended initialState).2.2.2.2.2.2 envRunC1 cfgRunC1 (by decide)).1⟩

/-- `setConn` (the model of `Map.set`) never produces an empty map. -/
lemma setConn_ne_nil (m : List (String × TraderConnection)) (t : String)
    (c : TraderConnection) : setConn m t c ≠ [] := by
  cases m with
  | nil => simp [setConn]
  | cons p rest =>
    simp only [setConn]
    split <;> simp

/-- The connection loop never removes connections. -/
lemma connectTraders_ne_nil (env : StartEnv) (tokens : List String) :
    ∀ s : ServiceState, s.traderConnections ≠ [] →
      (connectTraders env tokens s).traderConnections ≠ [] := by
  induction tokens with
  | nil => intro s h; exact h
  | cons t rest ih =>
    intro s h
    simp only [connectTraders]
    cases hc : env.connect t with
    | none => exact ih _ h
    | some info =>
      exact ih _ (setConn_ne_nil s.traderConnections t (mkTraderConnection t info))

/-- Starting from an empty connection map, the loop ends empty exactly
when every credential's login failed. -/
lemma connectTraders_empty_iff (env : StartEnv) (tokens : List String) :
    ∀ s : ServiceState, s.traderConnections = [] →
      ((connectTraders env tokens s).traderConnections = [] ↔
        ∀ t ∈ tokens, env.connect t = none) := by
  induction tokens with
  | nil =>
    intro s h
    simpa [connectTraders] using h
  | cons t rest ih =>
    intro s h
    simp only [connectTraders]
    cases hc : env.connect t with
    | none =>
      exact Iff.trans (ih s h) (by simp [hc])
    | some info =>
      constructor
      · intro hx
        exact absurd hx (connectTraders_ne_nil env rest _
          (setConn_ne_nil s.traderConnections t (mkTraderConnection t info)))
      · intro hall
        have hm := hall t (List.mem_cons_self t rest)
        rw [hc] at hm
        exact Option.noConfusion hm

/-- **C3.** Given a present platform handle, a non-empty credential list,
no pre-existing connections, and a successful mirror connection whenever
one is requested, `startCopyTrading` succeeds exactly when at least one
credential's login succeeded: single login failures are swallowed, and
the start fails only when every credential failed. -/
theorem claim_C3_start (env : StartEnv) (s : ServiceState)
    (cfg : CopyTradingConfig)
    (hapi : env.apiPresent = true)
    (htok : cfg.traderTokens ≠ [])
    (hconn : s.traderConnections = [])
    (hreal : cfg.copyToRealAccount = true →
      realTokenTruthy cfg = true ∧ realConnectSucceeds env = true) :
    ((startCopyTrading env s cfg).2 = true ↔
      cfg.traderTokens.any (fun t => (env.connect t).isSome) = true) := by
  have h2 : cfg.traderTokens.isEmpty = false := by
    cases hl : cfg.traderTokens with
    | nil => exact absurd hl htok
    | cons a l => rfl
  have h3 : (cfg.copyToRealAccount && !realTokenTruthy cfg) = false := by
    cases hc : cfg.copyToRealAccount with
    | false => rfl
    | true => simp [(hreal hc).1]
  have h4 : ((cfg.copyToRealAccount && realTokenTruthy cfg)
      && !realConnectSucceeds env) = false := by
    cases hc : cfg.copyToRealAccount with
    | false => rfl
    | true => simp [(hreal hc).2]
  have hS1 : ∀ s1 : ServiceState, s1.traderConnections = [] →
      ((if (connectTraders env cfg.traderTokens s1).traderConnections.isEmpty
          then ((connectTraders env cfg.traderTokens s1), false)
          else ({ connectTraders env cfg.traderTokens s1 with
                    isActive := true
                    config := some cfg
                    copiedTrades := 0
                    totalProfit := 0
                    monitoringActive := true }, true)).2 = true ↔
        cfg.traderTokens.any (fun t => (env.connect t).isSome) = true) := by
    intro s1 hs1
    by_cases hemp : (connectTraders env cfg.traderTokens s1).traderConnections = []
    · have hall := (connectTraders_empty_iff env cfg.traderTokens s1 hs1).mp hemp
      have hany : cfg.traderTokens.any (fun t => (env.connect t).isSome) = false := by
        simp only [List.any_eq_false]
        intro t ht
        simp [hall t ht]
      simp [hemp, hany]
    · have hsome : ∃ t ∈ cfg.traderTokens, env.connect t ≠ none := by
        by_contra hno
        push_neg at hno
        exact hemp ((connectTraders_empty_iff env cfg.traderTokens s1 hs1).mpr hno)
      have hany : cfg.traderTokens.any (fun t => (env.connect t).isSome) = true := by
        rcases hsome with ⟨t, ht, htc⟩
        simp only [List.any_eq_true]
        exact ⟨t, ht, by simpa [Option.isSome_iff_ne_none] using htc⟩
      have hempb : (connectTraders env cfg.traderTokens s1).traderConnections.isEmpty
          = false := by
        cases hx : (connectTraders env cfg.traderTokens s1).traderConnections with
        | nil => exact absurd hx hemp
        | cons a l => rfl
      simp [hempb, hany]
  simp only [startCopyTrading, hapi, h2, h3, h4, Bool.not_true,
    Bool.false_eq_true, if_false]
  cases hc : (cfg.copyToRealAccount && realTokenTruthy cfg) with
  | false =>
    simpa using hS1 s hconn
  | true =>
    simpa using hS1 { s with realAccountWs := true, realAccountAuthorized := true }
      (by simpa using hconn)

/-- Witness for C3: with two credentials where the first login fails and
the second succeeds, the start succeeds (Scenario B of the spec). -/
theorem claim_C3_start_witness :
    (startCopyTrading
      { apiPresent := true
        realConnect := none
        connect := fun t => if t = "T2"
          then some { loginid := "CR42", balance := 100 } else none }
      initialState
      { traderTokens := ["T1", "T2"] }).2 = true :=
  (claim_C3_start _ _ _ rfl (by decide) rfl (by decide)).mpr (by decide)

/-- **C4.** The transaction filter is a pure predicate; each of the four
sub-checks (asset allowlist, minimum stake, maximum stake, trade-type
allowlist) is independently sufficient to reject; and with all four
filters unset the filter passes every transaction. -/
theorem claim_C4_filter (c : CopyTradingConfig) (tx : Transaction) :
    (shouldCopyTrade (some c) tx = shouldCopyTrade (some c) tx) ∧
    (∀ as, c.assets = some as → as ≠ [] → tx.symbol ∉ as →
      shouldCopyTrade (some c) tx = false) ∧
    (∀ m, c.minTradeStake = some m → m ≠ 0 → tx.amount < m →
      shouldCopyTrade (some c) tx = false) ∧
    (∀ m, c.maxTradeStake = some m → m ≠ 0 → m < tx.amount →
      shouldCopyTrade (some c) tx = false) ∧
    (∀ ts, c.tradeTypes = some ts → ts ≠ [] → tx.contract_type ∉ ts →
      shouldCopyTrade (some c) tx = false) ∧
    (c.assets = none → c.minTradeStake = none → c.maxTradeStake = none →
      c.tradeTypes = none → shouldCopyTrade (some c) tx = true) := by
  refine ⟨rfl, ?_, ?_, ?_, ?_, ?_⟩
  · intro as has hne hnotin
    have hrej : assetFilterRejects c tx = true := by
      simp [assetFilterRejects, has, List.isEmpty_iff, hne, hnotin]
    simp [shouldCopyTrade, hrej]
  · intro m hm hm0 hlt
    have hrej : minStakeRejects c tx = true := by
      simp [minStakeRejects, hm, hm0, hlt]
    by_cases ha : assetFilterRejects c tx = true <;>
      simp [shouldCopyTrade, ha, hrej]
  · intro m hm hm0 hlt
    have hrej : maxStakeRejects c tx = true := by
      simp [maxStakeRejects, hm, hm0, hlt]
    by_cases ha : assetFilterRejects c tx = true <;>
      by_cases hmin : minStakeRejects c tx = true <;>
      simp [shouldCopyTrade, ha, hmin, hrej]
  · intro ts hts hne hnotin
    have hrej : tradeTypeRejects c tx = true := by
      simp [tradeTypeRejects, hts, List.isEmpty_iff, hne, hnotin]
    by_cases ha : assetFilterRejects c tx = true <;>
      by_cases hmin : minStakeRejects c tx = true <;>
      by_cases hmax : maxStakeRejects c tx = true <;>
      simp [shouldCopyTrade, ha, hmin, hmax, hrej]
  · intro h1 h2 h3 h4
    simp [shouldCopyTrade, assetFilterRejects, minStakeRejects,
      maxStakeRejects, tradeTypeRejects, h1, h2, h3, h4]

/-- Witness for C4 at concrete inputs: each sub-check rejecting alone, and
the all-unset config passing. -/
theorem claim_C4_filter_witness :
    shouldCopyTrade (some { traderTokens := ["T1"], assets := some ["R_100"] })
      { transaction_id := 1, action := "buy", symbol := "R_50", amount := 10,
        contract_type := "CALL" } = false ∧
    shouldCopyTrade (some { traderTokens := ["T1"], minTradeStake := some 20 })
      { transaction_id := 1, action := "buy", symbol := "R_50", amount := 10,
        contract_type := "CALL" } = false ∧
    shouldCopyTrade (some { traderTokens := ["T1"], maxTradeStake := some 5 })
      { transaction_id := 1, action := "buy", symbol := "R_50", amount := 10,
        contract_type := "CALL" } = false ∧
    shouldCopyTrade (some { traderTokens := ["T1"], tradeTypes := some ["PUT"] })
      { transaction_id := 1, action := "buy", symbol := "R_50", amount := 10,
        contract_type := "CALL" } = false ∧
    shouldCopyTrade (some { traderTokens := ["T1"] })
      { transaction_id := 1, action := "buy", symbol := "R_50", amount := 10,
        contract_type := "CALL" } = true := by
  refine ⟨?_, ?_, ?_, ?_, ?_⟩
  · exact (claim_C4_filter _ _).2.1 ["R_100"] rfl (by decide) (by decide)
  · exact (claim_C4_filter _ _).2.2.1 20 rfl (by norm_num) (by norm_num)
  · exact (claim_C4_filter _ _).2.2.2.1 5 rfl (by norm_num) (by norm_num)
  · exact (claim_C4_filter _ _).2.2.2.2.1 ["PUT"] rfl (by decide) (by decide)
  · exact (claim_C4_filter _ _).2.2.2.2.2 rfl rfl rfl rfl

/-- **C5.** For every accepted transaction the proposal request carries
`amount = source amount × multiplier` (multiplier 1.0 when unset), basis
"stake", the source instrument and contract type, duration defaulting to 5
when the source carries none, a barrier exactly when the source has a
(truthy) one — and the scaled stake is independent of the configured
min/max bounds (no re-validation). -/
theorem claim_C5_proposal (config : Option CopyTradingConfig) (tx : Transaction) :
    (buildProposalPayload config tx).basis = "stake" ∧
    (buildProposalPayload config tx).currency = "USD" ∧
    (buildProposalPayload config tx).symbol = tx.symbol ∧
    (buildProposalPayload config tx).contract_type = tx.contract_type ∧
    (∀ c r, config = some c → c.copyRatio = some r → r ≠ 0 →
      (buildProposalPayload config tx).amount = tx.amount * r) ∧
    (∀ c, config = some c → c.copyRatio = none →
      (buildProposalPayload config tx).amount = tx.amount) ∧
    (∀ d, tx.duration = some d → d ≠ 0 →
      (buildProposalPayload config tx).duration = d) ∧
    (tx.duration = none → (buildProposalPayload config tx).duration = 5) ∧
    (∀ b, tx.barrier = some b → b ≠ "" →
      (buildProposalPayload config tx).barrier = some b) ∧
    (tx.barrier = none → (buildProposalPayload config tx).barrier = none) ∧
    (∀ c m₁ m₂, config = some c →
      buildProposalPayload (some { c with minTradeStake := m₁, maxTradeStake := m₂ }) tx
        = buildProposalPayload (some c) tx) := by
  refine ⟨rfl, rfl, rfl, rfl, ?_, ?_, ?_, ?_, ?_, ?_, ?_⟩
  · intro c r hc hr hr0
    subst hc
    simp [buildProposalPayload, effectiveCopyRatio, hr, hr0]
  · intro c hc hr
    subst hc
    simp [buildProposalPayload, effectiveCopyRatio, hr]
  · intro d hd hd0
    simp [buildProposalPayload, hd, hd0]
  · intro hd
    simp [buildProposalPayload, hd]
  · intro b hb hb0
    simp [buildProposalPayload, hb, hb0]
  · intro hb
    simp [buildProposalPayload, hb]
  · intro c m₁ m₂ hc
    subst hc
    simp [buildProposalPayload, effectiveCopyRatio]

/-- Witness for C5 at a concrete config (ratio 2, bounds set) and a
concrete source transaction. -/
theorem claim_C5_proposal_witness :
    (buildProposalPayload
        (some { traderTokens := ["T1"], minTradeStake := some 1,
                maxTradeStake := some 15, copyRatio := some 2 })
        { transaction_id := 1, action := "buy", symbol := "R_50", amount := 10,
          contract_type := "CALL", duration := some 3,
          barrier := some "+0.1" }).amount = 10 * 2 ∧
    (buildProposalPayload
        (some { traderTokens := ["T1"], minTradeStake := some 1,
                maxTradeStake := some 15, copyRatio := some 2 })
        { transaction_id := 1, action := "buy", symbol := "R_50", amount := 10,
          contract_type := "CALL", duration := some 3,
          barrier := some "+0.1" }).duration = 3 ∧
    (buildProposalPayload
        (some { traderTokens := ["T1"], minTradeStake := some 1,
                maxTradeStake := some 15, copyRatio := some 2 })
        { transaction_id := 1, action := "buy", symbol := "R_50", amount := 10,
          contract_type := "CALL", duration := some 3,
          barrier := some "+0.1" }).barrier = some "+0.1" := by
  refine ⟨?_, ?_, ?_⟩
  · exact (claim_C5_proposal _ _).2.2.2.2.1 _ 2 rfl rfl (by norm_num)
  · exact (claim_C5_proposal _ _).2.2.2.2.2.2.1 3 rfl (by decide)
  · exact (claim_C5_proposal _ _).2.2.2.2.2.2.2.2.1 "+0.1" rfl (by decide)

/-- **C7.** An incoming event whose `action` is not `"buy"` leaves the
state (processed set, counters, connections) unchanged and issues no
replication. -/
theorem claim_C7_nonbuy (env : CopyEnv) (s : ServiceState) (token : String)
    (tx : Transaction) (h : tx.action ≠ "buy") :
    handleTraderTransaction env s token tx = (s, []) := by
  by_cases hmem : txKey token tx ∈ s.processedTransactions <;>
    simp [handleTraderTransaction, hmem, h]

/-- Witness for C7: a concrete `sell` event is a no-op. -/
theorem claim_C7_nonbuy_witness :
    handleTraderTransaction
      { apiPresent := true, proposalResp := some { id := 1, ask_price := 5 },
        buyResp := some { contract_id := 9 } }
      initialState "T1"
      { transaction_id := 2, action := "sell", symbol := "R_50", amount := 10,
        contract_type := "CALL" } = (initialState, []) :=
  claim_C7_nonbuy _ _ _ _ (by decide)

/-- **C9.** A stake multiplier of `0` is JS-falsy and treated as unset
(the replicator scales by 1.0), and a minimum-stake bound of `0` is
likewise falsy: the minimum-stake check rejects nothing, negative amounts
included. -/
theorem claim_C9_zero_falsy (c : CopyTradingConfig) (tx : Transaction) :
    (c.copyRatio = some 0 → (buildProposalPayload (some c) tx).amount = tx.amount) ∧
    (c.minTradeStake = some 0 → minStakeRejects c tx = false) := by
  constructor
  · intro h
    simp [buildProposalPayload, effectiveCopyRatio, h]
  · intro h
    simp [minStakeRejects, h]

/-- Witness for C9: ratio 0 copies a stake of 7 unscaled, and min-stake 0
passes an amount of −5. -/
theorem claim_C9_zero_falsy_witness :
    (buildProposalPayload
        (some { traderTokens := ["T1"], minTradeStake := some 0,
                copyRatio := some 0 })
        { transaction_id := 1, action := "buy", symbol := "R_50", amount := 7,
          contract_type := "CALL" }).amount = 7 ∧
    minStakeRejects
      { traderTokens := ["T1"], minTradeStake := some 0, copyRatio := some 0 }
      { transaction_id := 1, action := "buy", symbol := "R_50", amount := -5,
        contract_type := "CALL" } = false :=
  ⟨(claim_C9_zero_falsy _ _).1 rfl, (claim_C9_zero_falsy _ _).2 rfl⟩

/-- **C10.** `getDetailedStatistics` never divides by zero: the average is
`totalProfit / copiedTrades` when `copiedTrades > 0` and `0` when
`copiedTrades = 0`, in particular on the initial (never-started) state. -/
theorem claim_C10_average (s : ServiceState) :
    (s.copiedTrades = 0 → (getDetailedStatistics s).averageProfitPerTrade = 0) ∧
    (0 < s.copiedTrades →
      (getDetailedStatistics s).averageProfitPerTrade
        = s.totalProfit / (s.copiedTrades : Rat)) ∧
    (getDetailedStatistics initialState).averageProfitPerTrade = 0 := by
  refine ⟨?_, ?_, rfl⟩
  · intro h
    simp [getDetailedStatistics, h]
  · intro h
    simp [getDetailedStatistics, h]

/-- Witness for C10: two copied trades with total profit 10 average to 5. -/
theorem claim_C10_average_witness :
    (getDetailedStatistics { initialState with copiedTrades := 2, totalProfit := 10
      }).averageProfitPerTrade = 10 / (2 : Rat) :=
  (claim_C10_average _).2.1 (by norm_num)

/-- **C6 (counterexample).** The mirror-path request id is `Date.now()`,
so two requests issued within the same millisecond receive the *same* id:
the ids of a batch issued at times `[5, 5]` are `[5, 5]`, which are not
pairwise distinct.  The claim's "fresh request id distinct from every
other in-flight request's id" is false. -/
theorem claim_C6_counterexample :
    issuedReqIds [5, 5] = [5, 5] ∧
    ¬ List.Pairwise (fun a b => a ≠ b) (issuedReqIds [5, 5]) := by
  constructor
  · rfl
  · decide

/-- **C6 (amended).** Each mirror-path request's id is the issuing clock
value, so requests issued at distinct milliseconds get distinct ids (ids
of same-millisecond requests collide); a response only resolves the call
when its id matches; and if no matching response arrives within 10
seconds the call fails with the timeout error. -/
theorem claim_C6_amended :
    (∀ t1 t2 : Nat, t1 ≠ t2 → sendReqId t1 ≠ sendReqId t2) ∧
    (∀ now inbound r, sendToRealAccount true now inbound = .response r →
      r = sendReqId now ∧
      ∃ m ∈ inbound, m.req_id = sendReqId now ∧ m.arrival < now + 10000) ∧
    (∀ now inbound,
      (∀ m ∈ inbound, m.req_id = sendReqId now → now + 10000 ≤ m.arrival) →
      sendToRealAccount true now inbound = .timeoutErr) ∧
    (∀ now inbound, sendToRealAccount false now inbound = .notConnected) := by
  refine ⟨?_, ?_, ?_, ?_⟩
  · intro t1 t2 hne h
    exact hne h
  · intro now inbound r h
    cases hf : inbound.find? (fun m => decide (m.req_id = sendReqId now)) with
    | none => simp [sendToRealAccount, hf] at h
    | some m =>
      have hp := List.find?_some hf
      have hid : m.req_id = sendReqId now := by simpa using hp
      have hmem : m ∈ inbound := List.mem_of_find?_eq_some hf
      simp only [sendToRealAccount, Bool.not_true, Bool.false_eq_true,
        if_false, hf] at h
      by_cases ha : m.arrival < now + 10000
      · rw [if_pos ha] at h
        cases h
        exact ⟨hid, m, hmem, hid, ha⟩
      · rw [if_neg ha] at h
        exact RealSendResult.noConfusion h
  · intro now inbound hall
    cases hf : inbound.find? (fun m => decide (m.req_id = sendReqId now)) with
    | none => simp [sendToRealAccount, hf]
    | some m =>
      have hp := List.find?_some hf
      have hid : m.req_id = sendReqId now := by simpa using hp
      have harr := hall m (List.mem_of_find?_eq_some hf) hid
      simp [sendToRealAccount, hf, Nat.not_lt.mpr harr]
  · intro now inbound
    rfl

/-- Witness for C6 (amended): a matching response that only arrives 200
seconds later yields the timeout error, and issue times 3 and 4 yield
distinct ids. -/
theorem claim_C6_amended_witness :
    sendToRealAccount true 100 [{ arrival := 200000, req_id := 100 }]
      = RealSendResult.timeoutErr ∧
    sendReqId 3 ≠ sendReqId 4 := by
  constructor
  · exact claim_C6_amended.2.2.1 100 _ (by decide)
  · exact claim_C6_amended.1 3 4 (by decide)

/-- One list rewrite keeps the recent-signal list within the size bound. -/
lemma stepSignals_length_le (sigs : List Signal) (op : SignalOp)
    (h : sigs.length ≤ 10) : (stepSignals sigs op).length ≤ 10 := by
  cases op with
  | add s =>
    simp only [stepSignals, addSignal, List.length_cons, List.length_take]
    omega
  | sweep now =>
    calc (sweepSignals now sigs).length
        ≤ (sigs.map (updateRemaining now)).length :=
          List.length_filter_le _ _
      _ = sigs.length := List.length_map _ _
      _ ≤ 10 := h

/-- The size bound is an invariant of any run of the two rewrites. -/
lemma foldl_stepSignals_length_le (ops : List SignalOp) :
    ∀ sigs : List Signal, sigs.length ≤ 10 →
      (ops.foldl stepSignals sigs).length ≤ 10 := by
  induction ops with
  | nil => intro sigs h; exact h
  | cons op rest ih =>
    intro sigs h
    exact ih _ (stepSignals_length_le sigs op h)

/-- **C8.** The recent-signal list never holds more than 10 signals under
any interleaving of signal generation and countdown sweeps; a new signal
is prepended; and the sweep removes every signal whose validity window
has elapsed — every survivor with a (truthy) expiry still has time left. -/
theorem claim_C8_signals :
    (∀ ops : List SignalOp, (runSignals ops).length ≤ 10) ∧
    (∀ now prev s', s' ∈ sweepSignals now prev →
      ∀ e, s'.expiresAt = some e → e ≠ 0 → now < e) ∧
    (∀ sig prev, (addSignal sig prev).head? = some sig) := by
  refine ⟨?_, ?_, ?_⟩
  · intro ops
    exact foldl_stepSignals_length_le ops [] (by simp)
  · intro now prev s' hmem e he h0
    simp only [sweepSignals, List.mem_filter] at hmem
    obtain ⟨hmap, halive⟩ := hmem
    rw [List.mem_map] at hmap
    obtain ⟨s0, hs0, hupd⟩ := hmap
    subst hupd
    cases hE : s0.expiresAt with
    | none =>
      rw [show updateRemaining now s0 = s0 by simp [updateRemaining, hE]] at he
      rw [hE] at he
      exact Option.noConfusion he
    | some e0 =>
      by_cases h00 : e0 = 0
      · rw [show updateRemaining now s0 = s0 by simp [updateRemaining, hE, h00]]
          at he
        rw [hE] at he
        cases he
        exact absurd h00 h0
      · have hupdEq : updateRemaining now s0
            = { s0 with remainingTime := some ((e0 - now) / 1000) } := by
          simp [updateRemaining, hE, h00]
        rw [hupdEq] at he halive
        have he' : e = e0 := by
          have : s0.expiresAt = some e := he
          rw [hE] at this
          exact (Option.some_inj.mp this).symm
        have halive' : 0 < (e0 - now) / 1000 := by
          simpa [signalAlive] using halive
        subst he'
        by_contra hnl
        push_neg at hnl
        rw [Nat.sub_eq_zero_of_le hnl] at halive'
        simp at halive'
  · intro sig prev
    rfl

/-- Concrete signal for the C8 witness: expires at clock 50000. -/
def sigW : Signal :=
  { id := "signal-1", timestamp := 0, market := "R_50", type := "RISE",
    confidence := "HIGH", strategy := "trend",
    expiresAt := some 50000, remainingTime := some 40 }

/-- Witness for C8: a surviving signal of a sweep at clock 10000 indeed
has an expiry beyond the sweep time, and a concrete run stays bounded. -/
theorem claim_C8_signals_witness :
    (runSignals [SignalOp.add sigW, SignalOp.sweep 10000]).length ≤ 10 ∧
    10000 < 50000 := by
  constructor
  · exact claim_C8_signals.1 _
  · exact claim_C8_signals.2.1 10000 [sigW] (updateRemaining 10000 sigW)
      (by decide) 50000 (by decide) (by decide)

end GlobalRich
